import Mathlib

/-!
Shallow embedding of `src/services/api/src/core/rag_pipeline.py`
(class `RAGQueryPipeline`) from the chipper repository, together with
theorems checking the natural-language specification against it.

Effectful collaborators (the Ollama model manager, the Haystack pipeline
run, the conversation logger) are modelled as oracles: their observable
behaviour is a parameter, and the embedded functions return the events
yielded, the log records written, and the final outcome (normal return or
a raised exception) explicitly.
-/

namespace RagPipeline

/-- The provider enum consumed by `RAGQueryPipeline`
(`core.component_factory.ModelProvider`); the spec fixes it to the closed
set `{OLLAMA, HUGGINGFACE}`. -/
inductive ModelProvider
  | OLLAMA
  | HUGGINGFACE
deriving DecidableEq, Repr

/-- The slice of `QueryPipelineConfig` that `initialize_and_check_models`,
`run_query` and the prompt template read. -/
structure QueryPipelineConfig where
  provider : ModelProvider
  model_name : String
  embedding_model : String
  system_prompt : String
  enable_conversation_logs : Bool
deriving DecidableEq, Repr

/-- A readiness event: the dict
`\x7btype, status, message | error\x7d` yielded by the readiness generator
or by the model manager's `verify_and_pull_model`. -/
structure Event where
  type : String
  status : String
  message : Option String := none
  error : Option String := none
deriving DecidableEq, Repr

/-- The terminal error event yielded by the `except` clause of
`initialize_and_check_models`:
`\x7b"type": "model_status", "status": "error", "error": str(e)\x7d`. -/
def errorEvent (msg : String) : Event :=
  { type := "model_status", status := "error", error := some msg }

/-- The informational success event of the non-Ollama branch:
`\x7b"type": "model_status", "status": "success",
"message": "Using HuggingFace provider"\x7d`. -/
def successEvent : Event :=
  { type := "model_status", status := "success"
    message := some "Using HuggingFace provider" }

/-- Whether an event is an error event (`status = "error"`). -/
def Event.isError (e : Event) : Bool := e.status == "error"

/-- Observable behaviour of the `OllamaModelManager` collaborator:
`serverHealth = some msg` means `check_server_health()` raises with that
message; `verifyAndPull name` gives the events `verify_and_pull_model(name)`
yields before finishing, paired with `some msg` when it then raises. -/
structure ModelManagerBehavior where
  serverHealth : Option String
  verifyAndPull : String → List Event × Option String

/-- Outcome of running a generator or method to completion: either it
finishes normally or it raises an exception carrying a message. -/
inductive Outcome
  | normal
  | raised (msg : String)
deriving DecidableEq, Repr

/-- The consumed behaviour of one `initialize_and_check_models` call:
the full event sequence the caller iterates (in order), the final outcome,
and traces of how many times `check_server_health` ran and which model
names were passed to `verify_and_pull_model`. -/
structure CheckResult where
  events : List Event
  outcome : Outcome
  healthProbes : Nat
  verifyCalls : List String
deriving DecidableEq, Repr

/-- The `for model_name in required_models: yield from
self.model_manager.verify_and_pull_model(model_name)` loop: events are
yielded as produced; an exception from one generator aborts the loop. -/
def verifyLoop (m : ModelManagerBehavior) :
    List String → List Event × List String × Option String
  | [] => ([], [], none)
  | name :: rest =>
    let step := m.verifyAndPull name
    match step.2 with
    | some e => (step.1, [name], some e)
    | none =>
      let tail := verifyLoop m rest
      (step.1 ++ tail.1, name :: tail.2.1, tail.2.2)

/-- Embedding of the generator `initialize_and_check_models` of
`RAGQueryPipeline` (named `init_and_check_models` here), run to
completion by its consumer.  `mm` is `self.model_manager` (set to a manager
exactly when the provider is Ollama at engine construction, but passed
explicitly here).  The `try`/`except` wrapper catches any exception raised
in the body, yields one `errorEvent` carrying its message, and re-raises,
so the error event always precedes the `raised` outcome. -/
def init_and_check_models (cfg : QueryPipelineConfig)
    (mm : Option ModelManagerBehavior) : CheckResult :=
  match cfg.provider with
  | .HUGGINGFACE =>
      { events := [successEvent], outcome := .normal
        healthProbes := 0, verifyCalls := [] }
  | .OLLAMA =>
    match mm with
    | none =>
        -- `raise ValueError(...)` inside the `try`: the except clause
        -- yields the error event, then re-raises.
        let msg := "Ollama model manager not initialized but provider is Ollama"
        { events := [errorEvent msg], outcome := .raised msg
          healthProbes := 0, verifyCalls := [] }
    | some m =>
      match m.serverHealth with
      | some msg =>
          -- `check_server_health()` raised: caught, one error event, re-raise.
          { events := [errorEvent msg], outcome := .raised msg
            healthProbes := 1, verifyCalls := [] }
      | none =>
        let loop := verifyLoop m [cfg.model_name, cfg.embedding_model]
        match loop.2.2 with
        | none =>
            { events := loop.1, outcome := .normal
              healthProbes := 1, verifyCalls := loop.2.1 }
        | some msg =>
            { events := loop.1 ++ [errorEvent msg], outcome := .raised msg
              healthProbes := 1, verifyCalls := loop.2.1 }

/-! ## The prompt template

Embedding of the class attribute `template` (a Jinja chat template),
rendered at line granularity (leading indentation of the literal text is
dropped; the claims are about which lines appear and in what order). -/

/-- One turn of the conversation history: a dict with `role` and
`content` fields, as consumed by
`\x7b\x7b message.role \x7d\x7d: \x7b\x7b message.content \x7d\x7d`. -/
structure Turn where
  role : String
  content : String
deriving DecidableEq, Repr

/-- A retrieved document as consumed by the template: `content` text and
the `meta.file_path` field. -/
structure Document where
  content : String
  meta_file_path : String
deriving DecidableEq, Repr

/-- The line a conversation turn renders to. -/
def renderTurn (m : Turn) : String := m.role ++ ": " ++ m.content

/-- The lines one retrieved document renders to. -/
def renderDocument (d : Document) : List String :=
  [d.content, "Source: " ++ d.meta_file_path]

/-- Embedding of the Jinja template of `RAGQueryPipeline.template`, as the
`ChatPromptBuilder` renders it into the single system message, one list
entry per rendered line.  The `\x7b% if conversation %\x7d` guard makes the
conversation block (header plus one line per turn, in order) appear exactly
when the history list is truthy, i.e. non-empty. -/
def renderTemplate (system_prompt : String) (conversation : List Turn)
    (documents : List Document) (question : String) : List String :=
  ["System prompt:", system_prompt, ""]
    ++ (if conversation.isEmpty then []
        else "Previous conversation:" :: conversation.map renderTurn)
    ++ ["", "Context:"]
    ++ (documents.map renderDocument).flatten
    ++ ["Question: " ++ question ++ "?"]

/-! ## The query pipeline graph -/

/-- The Haystack `Pipeline` object, as far as the orchestrator observes
it: named component nodes and directed edges, in insertion order. -/
structure Pipeline where
  components : List String
  edges : List (String × String)
deriving DecidableEq, Repr

/-- `Pipeline()` constructor: an empty graph. -/
def Pipeline.new : Pipeline := { components := [], edges := [] }

/-- `pipeline.add_component(name, obj)`: appends a named node. -/
def Pipeline.add_component (p : Pipeline) (name : String) : Pipeline :=
  { p with components := p.components ++ [name] }

/-- `pipeline.connect(a, b)`: appends a directed edge. -/
def Pipeline.connect (p : Pipeline) (a b : String) : Pipeline :=
  { p with edges := p.edges ++ [(a, b)] }

/-- The mutable engine state that `create_query_pipeline` updates:
`self.query_pipeline`, `None` until a pipeline is built. -/
structure EngineState where
  query_pipeline : Option Pipeline
deriving DecidableEq, Repr

/-- Embedding of `RAGQueryPipeline.create_query_pipeline` on the success
path: builds a fresh `Pipeline()`, adds the four components
(embedder, retriever, prompt_builder, llm), wires the three edges, and
assigns the fresh graph to `self.query_pipeline`, replacing any previous
one.  Returns the updated engine state and the pipeline it returned. -/
def create_query_pipeline (e : EngineState) : EngineState × Pipeline :=
  let p := ((((((Pipeline.new.add_component
      "embedder").add_component
      "retriever").add_component
      "prompt_builder").add_component
      "llm").connect "embedder.embedding" "retriever.query_embedding").connect
      "retriever" "prompt_builder.documents").connect
      "prompt_builder.prompt" "llm.messages"
  ({ e with query_pipeline := some p }, p)

/-! ## run_query -/

/-- A candidate reply from the chat generator (`ChatMessage`): the
orchestrator only reads `.text`. -/
structure Reply where
  text : String
deriving DecidableEq, Repr

/-- The raw pipeline response dict: the orchestrator reads
`response["llm"]["replies"]` and passes the whole dict to the
conversation logger. -/
structure Response where
  llm_replies : List Reply
deriving DecidableEq, Repr

/-- The exceptions `run_query` distinguishes: `pydantic.ValidationError`,
`elasticsearch.BadRequestError`, and anything else. -/
inductive RunError
  | validationError (msg : String)
  | badRequestError (msg : String)
  | other (msg : String)
deriving DecidableEq, Repr

/-- Log levels used by `run_query`'s logger calls. -/
inductive LogLevel
  | info
  | warning
  | error
deriving DecidableEq, Repr

/-- One operational logger record. -/
structure LogRecord where
  level : LogLevel
  msg : String
deriving DecidableEq, Repr

/-- One conversation-log entry, as passed to
`conversation_logger.log_conversation(query, response, conversation)`:
the original question, the FULL raw pipeline response, and the history. -/
structure LogEntry where
  question : String
  response : Response
  conversation : List Turn
deriving DecidableEq, Repr

/-- Everything one `run_query` call does observably: the returned value
(`.ok` with the optional response text, `.error` when it re-raises), the
operational log records, and the conversation-log entries written. -/
structure RunResult where
  result : Except RunError (Option String)
  logs : List LogRecord
  convLog : List LogEntry
deriving Repr

/-- Embedding of `RAGQueryPipeline.run_query`.  `logEnabled` is whether
`self.conversation_logger` is set (i.e. `enable_conversation_logs`);
`pipelineRun` is the oracle outcome of `self.query_pipeline.run(...)`:
either the raw response dict or the exception it raises.  On success the
first reply's text (or `none` for an empty reply list) is extracted, the
conversation is logged if enabled, and the text is returned; a
`pydantic.ValidationError` is logged as a warning and swallowed into a
`none` return; a `BadRequestError` and any other exception are logged at
error level and re-raised. -/
def run_query (logEnabled : Bool)
    (pipelineRun : Except RunError Response)
    (query : String) (conversation : List Turn)
    (print_response : Bool) : RunResult :=
  match pipelineRun with
  | .ok response =>
      let response_text : Option String :=
        match response.llm_replies with
        | [] => none
        | r :: _ => some r.text
      let printLogs : List LogRecord :=
        match print_response, response_text with
        | true, some t =>
            [⟨.info, "Query: " ++ query⟩, ⟨.info, "Response: " ++ t⟩]
        | _, _ => []
      let convLog : List LogEntry :=
        if logEnabled then [⟨query, response, conversation⟩] else []
      { result := .ok response_text, logs := printLogs, convLog := convLog }
  | .error (.validationError m) =>
      { result := .ok none
        logs := [⟨.warning, "Pydantic validation error: " ++ m⟩]
        convLog := [] }
  | .error (.badRequestError m) =>
      { result := .error (.badRequestError m)
        logs := [⟨.error, "Elasticsearch error: " ++ m⟩]
        convLog := [] }
  | .error (.other m) =>
      { result := .error (.other m)
        logs := [⟨.error, "Query execution failed: " ++ m⟩]
        convLog := [] }

/-! ## Concrete fixtures used by witnesses and counterexamples -/

/-- The message of the `ValueError` raised when the provider is Ollama but
no model manager was initialized. -/
def noManagerMsg : String :=
  "Ollama model manager not initialized but provider is Ollama"

/-- A concrete Ollama configuration. -/
def cfgOllama : QueryPipelineConfig :=
  { provider := .OLLAMA, model_name := "phi4", embedding_model := "nomic"
    system_prompt := "be brief", enable_conversation_logs := true }

/-- A concrete HuggingFace configuration. -/
def cfgHF : QueryPipelineConfig :=
  { provider := .HUGGINGFACE, model_name := "phi4", embedding_model := "nomic"
    system_prompt := "be brief", enable_conversation_logs := false }

/-- A model manager whose health probe raises. -/
def mmUnhealthy : ModelManagerBehavior :=
  { serverHealth := some "connection refused"
    verifyAndPull := fun _ => ([], none) }

/-! ## Claims -/

/-- C1 (counterexample).  The claim says a missing model manager under the
Ollama provider is raised immediately and the consumed event sequence
contains no error event for this failure.  In the code the `raise
ValueError` sits inside the `try` of the generator, so the generic
`except` clause yields the error event before re-raising: at this concrete
configuration the consumed sequence DOES contain an error event. -/
theorem noManager_error_event_is_yielded_cex :
    (init_and_check_models cfgOllama none).events = [errorEvent noManagerMsg]
      ∧ (errorEvent noManagerMsg).isError = true := by
  exact ⟨rfl, rfl⟩

/-- C1 (amended).  For every configuration with provider = OLLAMA and no
model manager initialized, the readiness check catches the configuration
error in its generic exception handler, yields exactly one terminal error
event carrying its message, performs no health probe and no model
verification, and then re-raises the error to the caller. -/
theorem noManager_yields_error_then_raises (cfg : QueryPipelineConfig)
    (hp : cfg.provider = .OLLAMA) :
    init_and_check_models cfg none
      = { events := [errorEvent noManagerMsg], outcome := .raised noManagerMsg
          healthProbes := 0, verifyCalls := [] } := by
  obtain ⟨p, mn, em, sp, logs⟩ := cfg
  cases hp
  rfl

/-- C1 (witness for the amended theorem): the Ollama fixture satisfies the
hypothesis and the conclusion holds there. -/
theorem noManager_yields_error_then_raises_witness :
    cfgOllama.provider = ModelProvider.OLLAMA
      ∧ init_and_check_models cfgOllama none
          = { events := [errorEvent noManagerMsg]
              outcome := .raised noManagerMsg
              healthProbes := 0, verifyCalls := [] } :=
  ⟨rfl, noManager_yields_error_then_raises cfgOllama rfl⟩

/-- C2.  For every successful pipeline run, `run_query` returns the text
of the first candidate reply when the generator produced a non-empty
candidate sequence, and returns the "no answer" sentinel (`None`) without
raising when the candidate sequence is empty. -/
theorem run_query_first_reply_or_none (logEnabled : Bool)
    (response : Response) (query : String) (conversation : List Turn)
    (pr : Bool) :
    (run_query logEnabled (.ok response) query conversation pr).result
      = .ok (response.llm_replies.head?.map Reply.text) := by
  cases h : response.llm_replies <;> simp [run_query, h]

/-- C3.  When the pipeline run raises a `pydantic.ValidationError`,
`run_query` recovers locally: it returns the "no answer" sentinel (no
exception propagates), and its only log record is at warning level. -/
theorem run_query_validation_recovered (logEnabled : Bool) (m : String)
    (query : String) (conversation : List Turn) (pr : Bool) :
    (run_query logEnabled (.error (.validationError m)) query conversation
        pr).result = .ok none
      ∧ (run_query logEnabled (.error (.validationError m)) query conversation
          pr).logs = [⟨.warning, "Pydantic validation error: " ++ m⟩]
      ∧ (run_query logEnabled (.error (.validationError m)) query conversation
          pr).convLog = [] := by
  exact ⟨rfl, rfl, rfl⟩

/-- C4.  When the pipeline run raises an `elasticsearch.BadRequestError`,
`run_query` re-raises that same error and writes no conversation-log
entry, whatever the conversation-logging flag (in particular when it is
enabled). -/
theorem run_query_bad_request_raises (logEnabled : Bool) (m : String)
    (query : String) (conversation : List Turn) (pr : Bool) :
    (run_query logEnabled (.error (.badRequestError m)) query conversation
        pr).result = .error (.badRequestError m)
      ∧ (run_query logEnabled (.error (.badRequestError m)) query conversation
          pr).convLog = []
      ∧ (run_query true (.error (.badRequestError m)) query conversation
          pr).convLog = [] := by
  exact ⟨rfl, rfl, rfl⟩

/-- C5.  For every Ollama configuration whose health probe raises, the
readiness sequence is exactly one terminal error event carrying the
probe's message (so no provisioning events at all), the model manager is
never asked to verify or pull a model, and the outcome is the re-raised
exception, observed after the event. -/
theorem probe_failure_single_error_event (cfg : QueryPipelineConfig)
    (m : ModelManagerBehavior) (msg : String)
    (hp : cfg.provider = .OLLAMA) (hh : m.serverHealth = some msg) :
    init_and_check_models cfg (some m)
      = { events := [errorEvent msg], outcome := .raised msg
          healthProbes := 1, verifyCalls := [] } := by
  obtain ⟨p, mn, em, sp, logs⟩ := cfg
  cases hp
  simp [init_and_check_models, hh]

/-- C5 (witness): a concrete Ollama configuration with a failing probe. -/
theorem probe_failure_single_error_event_witness :
    (cfgOllama.provider = ModelProvider.OLLAMA
        ∧ mmUnhealthy.serverHealth = some "connection refused")
      ∧ init_and_check_models cfgOllama (some mmUnhealthy)
          = { events := [errorEvent "connection refused"]
              outcome := .raised "connection refused"
              healthProbes := 1, verifyCalls := [] } :=
  ⟨⟨rfl, rfl⟩, probe_failure_single_error_event cfgOllama mmUnhealthy
    "connection refused" rfl rfl⟩

/-- Rendering with an empty history: the conversation block vanishes
entirely, leaving only the fixed sections. -/
theorem renderTemplate_nil (sp : String) (docs : List Document)
    (q : String) :
    renderTemplate sp [] docs q
      = ["System prompt:", sp, "", "", "Context:"]
          ++ (docs.map renderDocument).flatten
          ++ ["Question: " ++ q ++ "?"] := by
  simp [renderTemplate]

/-- C6.  The rendered prompt contains the conversation header iff the
history is non-empty (provided no other rendered line collides with the
header text); when non-empty, the rendered turn lines occur in the prompt
in their original order (as a sublist); when empty, the prompt is exactly
the template with no conversation block at all. -/
theorem conversation_block_iff_nonempty (sp : String) (conv : List Turn)
    (docs : List Document) (q : String)
    (hsp : sp ≠ "Previous conversation:")
    (hdocs : ∀ l ∈ (docs.map renderDocument).flatten,
      l ≠ "Previous conversation:")
    (hq : "Question: " ++ q ++ "?" ≠ "Previous conversation:") :
    ("Previous conversation:" ∈ renderTemplate sp conv docs q ↔ conv ≠ [])
      ∧ List.Sublist (conv.map renderTurn) (renderTemplate sp conv docs q)
      ∧ (conv = [] →
          renderTemplate sp conv docs q
            = ["System prompt:", sp, "", "", "Context:"]
                ++ (docs.map renderDocument).flatten
                ++ ["Question: " ++ q ++ "?"]) := by
  refine ⟨⟨?_, ?_⟩, ?_, ?_⟩
  · intro hmem
    cases conv with
    | cons t ts => exact List.cons_ne_nil t ts
    | nil =>
      exfalso
      rw [renderTemplate_nil] at hmem
      rcases List.mem_append.1 hmem with h | h
      · rcases List.mem_append.1 h with h1 | h1
        · simp only [List.mem_cons, List.not_mem_nil, or_false] at h1
          rcases h1 with h2 | h2 | h2 | h2 | h2
          · exact absurd h2 (by decide)
          · exact hsp h2.symm
          · exact absurd h2 (by decide)
          · exact absurd h2 (by decide)
          · exact absurd h2 (by decide)
        · exact hdocs _ h1 rfl
      · simp only [List.mem_singleton] at h
        exact hq h.symm
  · intro hne
    cases conv with
    | nil => exact absurd rfl hne
    | cons t ts => simp [renderTemplate]
  · cases conv with
    | nil => simp
    | cons t ts =>
      have hblk : renderTemplate sp (t :: ts) docs q
          = ["System prompt:", sp, ""]
              ++ ("Previous conversation:" :: (t :: ts).map renderTurn)
              ++ ["", "Context:"]
              ++ (docs.map renderDocument).flatten
              ++ ["Question: " ++ q ++ "?"] := rfl
      rw [hblk]
      have s1 : List.Sublist ((t :: ts).map renderTurn)
          (["System prompt:", sp, ""]
            ++ ("Previous conversation:" :: (t :: ts).map renderTurn)) :=
        (List.sublist_cons_self _ _).trans (List.sublist_append_right _ _)
      have s2 := s1.trans (List.sublist_append_left _ ["", "Context:"])
      have s3 := s2.trans
        (List.sublist_append_left _ ((docs.map renderDocument).flatten))
      exact s3.trans
        (List.sublist_append_left _ ["Question: " ++ q ++ "?"])
  · intro h
    subst h
    exact renderTemplate_nil sp docs q

/-- C6 (witness): concrete inputs discharging the non-collision
hypotheses; one turn of history, one document. -/
theorem conversation_block_iff_nonempty_witness :
    (("assist" : String) ≠ "Previous conversation:"
        ∧ (∀ l ∈ (([⟨"doc text", "a.md"⟩] : List Document).map
            renderDocument).flatten, l ≠ "Previous conversation:")
        ∧ "Question: " ++ "why" ++ "?" ≠ "Previous conversation:")
      ∧ (("Previous conversation:"
            ∈ renderTemplate "assist" [⟨"user", "hi"⟩] [⟨"doc text", "a.md"⟩]
                "why" ↔ ([⟨"user", "hi"⟩] : List Turn) ≠ [])
          ∧ List.Sublist (([⟨"user", "hi"⟩] : List Turn).map renderTurn)
              (renderTemplate "assist" [⟨"user", "hi"⟩] [⟨"doc text", "a.md"⟩]
                "why")
          ∧ (([⟨"user", "hi"⟩] : List Turn) = [] →
              renderTemplate "assist" [⟨"user", "hi"⟩] [⟨"doc text", "a.md"⟩]
                  "why"
                = ["System prompt:", "assist", "", "", "Context:"]
                    ++ (([⟨"doc text", "a.md"⟩] : List Document).map
                        renderDocument).flatten
                    ++ ["Question: " ++ "why" ++ "?"])) :=
  ⟨⟨by decide, by decide, by decide⟩,
    conversation_block_iff_nonempty "assist" [⟨"user", "hi"⟩]
      [⟨"doc text", "a.md"⟩] "why" (by decide) (by decide) (by decide)⟩

/-- C7.  Building the pipeline twice on the same engine replaces the graph
rather than appending: after the second build the engine's graph is the
four nodes embedder, retriever, prompt_builder and the generator node
(named `llm`), with exactly 3 edges. -/
theorem second_build_replaces_graph (e : EngineState) :
    ∃ p, (create_query_pipeline (create_query_pipeline e).1).1.query_pipeline
        = some p
      ∧ p.components = ["embedder", "retriever", "prompt_builder", "llm"]
      ∧ p.components.length = 4
      ∧ p.edges.length = 3 := by
  exact ⟨_, rfl, rfl, rfl, rfl⟩

/-- C8.  For every non-Ollama (HuggingFace) configuration, whatever model
manager is present, the readiness sequence is exactly one success event
of type `model_status` / status `success`, with no health probe and no
model verification or pulling. -/
theorem huggingface_single_success (cfg : QueryPipelineConfig)
    (mm : Option ModelManagerBehavior)
    (hp : cfg.provider = .HUGGINGFACE) :
    init_and_check_models cfg mm
      = { events := [successEvent], outcome := .normal
          healthProbes := 0, verifyCalls := [] }
      ∧ successEvent.type = "model_status" ∧ successEvent.status = "success" := by
  obtain ⟨p, mn, em, sp, logs⟩ := cfg
  cases hp
  exact ⟨rfl, rfl, rfl⟩

/-- C8 (witness): the HuggingFace fixture. -/
theorem huggingface_single_success_witness :
    cfgHF.provider = ModelProvider.HUGGINGFACE
      ∧ (init_and_check_models cfgHF none
            = { events := [successEvent], outcome := .normal
                healthProbes := 0, verifyCalls := [] }
          ∧ successEvent.type = "model_status"
          ∧ successEvent.status = "success") :=
  ⟨rfl, huggingface_single_success cfgHF none rfl⟩

/-- C9.  For every successful pipeline run with conversation logging
enabled, exactly one conversation-log entry is written, and it carries the
original question, the FULL raw pipeline response and the history. -/
theorem one_log_entry_with_raw_response (response : Response)
    (query : String) (conversation : List Turn) (pr : Bool) :
    (run_query true (.ok response) query conversation pr).convLog
      = [{ question := query, response := response
           conversation := conversation }] := by
  cases h : response.llm_replies <;> simp [run_query, h]

/-- C10.  The last rendered line is always the question text with a
literal question mark appended, so a question that already ends in a
question mark renders with a doubled one. -/
theorem question_mark_always_appended (sp : String) (conv : List Turn)
    (docs : List Document) (q base : String) :
    (renderTemplate sp conv docs q).getLast?
        = some ("Question: " ++ q ++ "?")
      ∧ (renderTemplate sp conv docs (base ++ "?")).getLast?
          = some ("Question: " ++ base ++ "??") := by
  have hqq : ("?" : String) ++ "?" = "??" := rfl
  constructor
  · rw [renderTemplate, List.getLast?_append]
    simp [Option.or]
  · rw [renderTemplate, List.getLast?_append]
    simp [Option.or, String.append_assoc, hqq]

end RagPipeline
